import Mathlib

/-!
Shallow embedding of `CerberAuth.py` (Rescore09/Cerber): the license
lifecycle and verification engine, the metrics counters, the admin gate,
the key generator, and the key-info endpoint, together with theorems
checking the natural-language specification against them.

The SQLite database is modelled as in-memory lists (one per table); each
SQL statement of the source is one atomic operation on that state.
`datetime.now()` is passed in explicitly as a `DateTime` value.  The one
fallible effect the claims are about — the usage-log INSERT raising an
exception — is modelled by a `logFails` flag in the request context.
-/

namespace Cerber

/-- A calendar date, as produced by `datetime.strptime(s, "%Y-%m-%d")`. -/
structure Date where
  year : Nat
  month : Nat
  day : Nat
deriving DecidableEq

/-- A point in time: `datetime.strptime` with `"%Y-%m-%d"` yields midnight
(`secondOfDay = 0`) of the parsed date; `datetime.now()` carries the
current time of day. -/
structure DateTime where
  date : Date
  secondOfDay : Nat
deriving DecidableEq

/-- Lexicographic strict order on dates, matching `datetime` comparison of
the date components. -/
def dateLt (a b : Date) : Bool :=
  decide (a.year < b.year) ||
    (a.year == b.year &&
      (decide (a.month < b.month) ||
        (a.month == b.month && decide (a.day < b.day))))

/-- Strict order on datetimes: date first, then time of day, matching
Python `datetime` comparison. -/
def dtLt (a b : DateTime) : Bool :=
  dateLt a.date b.date || (a.date == b.date && decide (a.secondOfDay < b.secondOfDay))

/-- Gregorian leap-year rule used by `datetime` for day-of-month validity. -/
def isLeapYear (y : Nat) : Bool :=
  (y % 4 == 0 && y % 100 != 0) || y % 400 == 0

/-- Days in a month, as validated by `datetime`'s constructor. -/
def daysInMonth (y m : Nat) : Nat :=
  if m == 2 then (if isLeapYear y then 29 else 28)
  else if m == 4 || m == 6 || m == 9 || m == 11 then 30
  else 31

/-- Python `str.split(sep)` for a single-character separator, over the
character list of the string (`"a-b".split("-") = ["a","b"]`,
`"".split("-") = [""]`, `"-".split("-") = ["",""]`). -/
def splitOnChar (sep : Char) : List Char → List (List Char)
  | [] => [[]]
  | c :: cs =>
    match splitOnChar sep cs with
    | [] => if c == sep then [[], []] else [[c]]
    | h :: t => if c == sep then [] :: h :: t else (c :: h) :: t

/-- Whether a character list is wholly made of ASCII digits (and nonempty). -/
def allDigits (l : List Char) : Bool :=
  !l.isEmpty && l.all Char.isDigit

/-- The numeric value of a list of ASCII digits (Python `int`). -/
def digitsVal (l : List Char) : Nat :=
  l.foldl (fun n c => n * 10 + (c.toNat - 48)) 0

/-- `datetime.strptime(s, "%Y-%m-%d")` as a total function: `%Y` matches
exactly four digits, `%m` and `%d` one or two digits, the dashes are
literal, and the resulting components must form a real calendar date
(year at least 1, month 1..12, day within the month).  Returns `none`
exactly when the Python call raises `ValueError`. -/
def parseDate (s : String) : Option Date :=
  match splitOnChar '-' s.data with
  | [y, m, d] =>
    if allDigits y && allDigits m && allDigits d &&
        y.length == 4 && decide (m.length ≤ 2) && decide (d.length ≤ 2) then
      let yn := digitsVal y
      let mn := digitsVal m
      let dn := digitsVal d
      if decide (1 ≤ yn) && decide (1 ≤ mn) && decide (mn ≤ 12) &&
          decide (1 ≤ dn) && decide (dn ≤ daysInMonth yn mn) then
        some ⟨yn, mn, dn⟩
      else none
    else none
  | _ => none

/-- `is_expired` (CerberAuth.py, lines 263-268): parse the stored expiry
string as `YYYY-MM-DD` and test `datetime.now() > expiry_date`; any
parse failure is reported as expired. -/
def is_expired (now : DateTime) (expires_at : String) : Bool :=
  match parseDate expires_at with
  | none => true
  | some d => dtLt ⟨d, 0⟩ now

/-- One row of the `licenses` table. -/
structure License where
  key : String
  hwid : Option String
  expires_at : String
  plan : String
deriving DecidableEq

/-- One row of the `usage_logs` table. -/
structure UsageLog where
  license_key : String
  ip_address : String
  user_agent : String
  hwid : String
  timestamp : String
  geo_country : String
deriving DecidableEq

/-- The SQLite database: the two tables of `LicenseDB.init_database`. -/
structure DB where
  licenses : List License
  logs : List UsageLog
deriving DecidableEq

/-- `SELECT ... FROM licenses WHERE key = ?` (`LicenseDB.get_license`). -/
def get_license (db : DB) (key : String) : Option License :=
  db.licenses.find? (fun l => l.key == key)

/-- `LicenseDB.add_license`: INSERT, returning `false` on the primary-key
IntegrityError (duplicate key) and leaving the table unchanged then. -/
def add_license (db : DB) (key : String) (hwid : Option String)
    (expires_at : String) (plan : String) : Bool × DB :=
  if db.licenses.any (fun l => l.key == key) then
    (false, db)
  else
    (true, { db with licenses := db.licenses ++ [⟨key, hwid, expires_at, plan⟩] })

/-- `UPDATE licenses SET hwid = ? WHERE key = ?` — the unconditional
binding write issued inline in `verify_license` (lines 291-295). -/
def update_hwid (db : DB) (key : String) (hwid : String) : DB :=
  { db with licenses :=
      db.licenses.map (fun l => if l.key == key then { l with hwid := some hwid } else l) }

/-- `LicenseDB.reset_hwid`: `UPDATE licenses SET hwid = NULL WHERE key = ?`,
reporting whether a row was affected. -/
def reset_hwid (db : DB) (key : String) : Bool × DB :=
  (db.licenses.any (fun l => l.key == key),
   { db with licenses :=
       db.licenses.map (fun l => if l.key == key then { l with hwid := none } else l) })

/-- `LicenseDB.log_usage`: append one row to `usage_logs`. -/
def log_usage (db : DB) (license_key ip user_agent hwid timestamp geo_country : String) : DB :=
  { db with logs := db.logs ++ [⟨license_key, ip, user_agent, hwid, timestamp, geo_country⟩] }

/-- The min of two timestamp strings under SQLite text ordering. -/
def strMin (a b : String) : String := if a < b then a else b

/-- The max of two timestamp strings under SQLite text ordering. -/
def strMax (a b : String) : String := if a < b then b else a

/-- The row shape returned by `LicenseDB.get_usage_info`. -/
structure UsageInfo where
  ip : String
  user_agent : String
  hwid : String
  geo_country : String
  first_login : String
  last_login : String
  login_count : Nat
deriving DecidableEq

/-- `LicenseDB.get_usage_info`: the GROUP BY aggregate over `usage_logs`
rows of the given key; `none` exactly when the key has no usage rows.
The bare (non-aggregated) columns are taken from the first matching row
(SQLite leaves the choice of row unspecified); `MIN`/`MAX`/`COUNT` fold
over all matching rows. -/
def get_usage_info (db : DB) (license_key : String) : Option UsageInfo :=
  match db.logs.filter (fun l => l.license_key == license_key) with
  | [] => none
  | e :: es =>
    some ⟨e.ip_address, e.user_agent, e.hwid, e.geo_country,
      (es.map (fun l => l.timestamp)).foldl strMin e.timestamp,
      (es.map (fun l => l.timestamp)).foldl strMax e.timestamp,
      es.length + 1⟩

/-- The mutable counters of `APIStats` (`start_time` and the unused
`active_licenses` are omitted: no claim touches them). -/
structure APIStats where
  request_count : Nat
  verify_requests : Nat
  admin_requests : Nat
  error_count : Nat
deriving DecidableEq

/-- Counter state at process start (`APIStats.__init__`). -/
def initStats : APIStats := ⟨0, 0, 0, 0⟩

/-- `APIStats.increment_request`: bump the total, and the per-kind counter
for `"verify"` / `"admin"`. -/
def increment_request (s : APIStats) (endpoint_type : String) : APIStats :=
  let s1 := { s with request_count := s.request_count + 1 }
  if endpoint_type == "verify" then
    { s1 with verify_requests := s1.verify_requests + 1 }
  else if endpoint_type == "admin" then
    { s1 with admin_requests := s1.admin_requests + 1 }
  else s1

/-- `APIStats.increment_error`. -/
def increment_error (s : APIStats) : APIStats :=
  { s with error_count := s.error_count + 1 }

/-- The snapshot returned by `APIStats.get_stats` (`uptime` omitted; the
success rate is kept as an exact rational — the source formats
`rate * 100` to one decimal, which only coarsens it). -/
structure StatsSnapshot where
  total_requests : Nat
  verify_requests : Nat
  admin_requests : Nat
  error_count : Nat
  success_rate : ℚ
deriving DecidableEq

/-- `APIStats.get_stats`: copy of the counters plus
`(request_count - error_count) / max(request_count, 1)` computed in exact
rational arithmetic (Python computes the same value in floats and then
formats it). -/
def get_stats (s : APIStats) : StatsSnapshot :=
  ⟨s.request_count, s.verify_requests, s.admin_requests, s.error_count,
    ((s.request_count : ℚ) - (s.error_count : ℚ)) / (max s.request_count 1 : ℚ)⟩

/-- The outcome of the `/verify` endpoint, as a closed variant type:
400 missing fields, 401 key not found, 410 expired, 403 HWID mismatch,
500 internal error, or the success JSON `{valid, expires_at, plan}`. -/
inductive VerifyResult where
  | badRequest
  | notFound
  | expired
  | hwidMismatch
  | internalError
  | valid (expires_at : String) (plan : String)
deriving DecidableEq

/-- Per-request context of a `/verify` call: the caller data written to the
usage log, and whether the usage-log INSERT raises (the fallible effect
inside the outer `try`). -/
structure VerifyCtx where
  ip : String
  user_agent : String
  geo_country : String
  timestamp : String
  logFails : Bool
deriving DecidableEq

/-- `verify_license` (CerberAuth.py, lines 270-315), sequentially executed:
field presence check; lookup (`Key not found`); expiry check; if the
stored hwid is NULL, the unconditional binding UPDATE, else the mismatch
check; then the usage-log INSERT, the `verify` counter bump and the
success body.  If the usage-log INSERT raises, the outer `except` catches
it after the binding UPDATE has already been committed, increments the
error counter and returns the 500 body. -/
def verify_license (db : DB) (stats : APIStats) (keyField hwidField : Option String)
    (now : DateTime) (ctx : VerifyCtx) : VerifyResult × DB × APIStats :=
  match keyField, hwidField with
  | some license_key, some hwid =>
    match get_license db license_key with
    | none => (.notFound, db, increment_error stats)
    | some license_info =>
      if is_expired now license_info.expires_at then
        (.expired, db, increment_error stats)
      else
        match license_info.hwid with
        | none =>
          let db1 := update_hwid db license_key hwid
          if ctx.logFails then
            (.internalError, db1, increment_error stats)
          else
            (.valid license_info.expires_at license_info.plan,
             log_usage db1 license_key ctx.ip ctx.user_agent hwid ctx.timestamp ctx.geo_country,
             increment_request stats "verify")
        | some stored =>
          if stored == hwid then
            if ctx.logFails then
              (.internalError, db, increment_error stats)
            else
              (.valid license_info.expires_at license_info.plan,
               log_usage db license_key ctx.ip ctx.user_agent hwid ctx.timestamp ctx.geo_country,
               increment_request stats "verify")
          else
            (.hwidMismatch, db, increment_error stats)
  | _, _ => (.badRequest, db, increment_error stats)

/-- The outcome of `/api/generate` (after the admin gate): 400 missing
fields, 400 invalid date, 500 on key conflict, or the issued key. -/
inductive IssueResult where
  | badRequest
  | invalidDate
  | conflict
  | issued (key : String) (expires_at : String)
deriving DecidableEq

/-- `generate_license` (CerberAuth.py, lines 317-346), the endpoint body
after `require_admin_key`.  `hwidField` is `some v` when the JSON carries
a `"hwid"` member with value `v` (`v = none` models JSON null, which the
source stores as SQL NULL unchecked).  The freshly generated key is a
parameter (`generate_license_key()` draws it from `secrets`). -/
def generate_license (db : DB) (stats : APIStats) (expiresField : Option String)
    (hwidField : Option (Option String)) (planField : Option String)
    (newKey : String) : IssueResult × DB × APIStats :=
  match expiresField, hwidField with
  | some expires_at, some hwid =>
    match parseDate expires_at with
    | none => (.invalidDate, db, increment_error stats)
    | some _ =>
      let plan := planField.getD "basic"
      match add_license db newKey hwid expires_at plan with
      | (true, db1) => (.issued newKey expires_at, db1, stats)
      | (false, _) => (.conflict, db, increment_error stats)
  | _, _ => (.badRequest, db, increment_error stats)

/-- `require_admin_key` (CerberAuth.py, lines 243-258) composed with an
arbitrary wrapped endpoint body `f`: the `Authorization` header (empty
string when absent) must start with `"Bearer "` and its second
space-separated token must equal the admin key; otherwise the error
counter is bumped and 401 is returned without running `f`.  On success
the `admin` request counter is bumped and `f` runs.  The result is
`none` exactly when the wrapped body was never executed. -/
def admin_endpoint {α : Type} (f : APIStats → α × APIStats)
    (authHeader admin_key : String) (stats : APIStats) : Option α × APIStats :=
  if !(authHeader.data.take 7 == "Bearer ".data) then
    (none, increment_error stats)
  else
    let token := (splitOnChar ' ' authHeader.data).getD 1 []
    if token != admin_key.data then
      (none, increment_error stats)
    else
      let (a, s2) := f (increment_request stats "admin")
      (some a, s2)

/-- The outcome of `/api/keyinfo` (after the admin gate): 400 missing
parameter, the `no key info` message, or the aggregate row.  There is no
not-found outcome: the endpoint never consults the `licenses` table. -/
inductive KeyInfoResult where
  | badRequest
  | noData
  | info (u : UsageInfo)
deriving DecidableEq

/-- `get_key_info` (CerberAuth.py, lines 386-403), the endpoint body after
`require_admin_key`: a missing or empty `key` query parameter (Python
falsiness) is 400; otherwise the usage aggregate, with the
`no key info` message when it is NULL. -/
def get_key_info (db : DB) (keyParam : Option String) : KeyInfoResult :=
  match keyParam with
  | none => .badRequest
  | some k =>
    if k == "" then .badRequest
    else
      match get_usage_info db k with
      | none => .noData
      | some u => .info u

/-! ### The key generator

`generate_license_key` is `f"LIC-{secrets.token_urlsafe(16).upper()}"`.
`secrets.token_urlsafe(16)` draws 16 uniformly random bytes and base64url
encodes them (padding stripped): the byte stream is read as a bit stream
most-significant-bit first, chopped into 6-bit groups, the last group
zero-padded on the right, and each group mapped through the URL-safe
base64 alphabet.  The random bytes are the explicit argument here. -/

/-- The URL-safe base64 alphabet of `base64.urlsafe_b64encode`. -/
def base64url_alphabet : List Char :=
  "ABCDEFGHIJKLMNOPQRSTUVWXYZabcdefghijklmnopqrstuvwxyz0123456789-_".data

/-- The alphabet symbol for one 6-bit group. -/
def sextetChar (n : Nat) : Char :=
  if h : n < base64url_alphabet.length then base64url_alphabet.get ⟨n, h⟩ else 'A'

/-- The eight bits of a byte, most significant first. -/
def bitsOfByte (b : Nat) : List Nat :=
  [b / 128 % 2, b / 64 % 2, b / 32 % 2, b / 16 % 2, b / 8 % 2, b / 4 % 2, b / 2 % 2, b % 2]

/-- Chop a bit stream into 6-bit group values, zero-padding the last
group on the right (exactly the base64 encoding rule once padding
characters are stripped). -/
def toSextets : List Nat → List Nat
  | b1 :: b2 :: b3 :: b4 :: b5 :: b6 :: rest =>
    (32 * b1 + 16 * b2 + 8 * b3 + 4 * b4 + 2 * b5 + b6) :: toSextets rest
  | [] => []
  | bits => [(bits.foldl (fun a b => 2 * a + b) 0) * 2 ^ (6 - bits.length)]

/-- `secrets.token_urlsafe` applied to the given random bytes. -/
def token_urlsafe (bytes : List Nat) : String :=
  String.mk ((toSextets (bytes.map bitsOfByte).flatten).map sextetChar)

/-- `generate_license_key` (CerberAuth.py, lines 260-261):
`"LIC-"` prepended to the upper-cased URL-safe token. -/
def generate_license_key (bytes : List Nat) : String :=
  "LIC-" ++ String.mk ((token_urlsafe bytes).data.map Char.toUpper)

/-! ### Interleaved execution of two concurrent `/verify` calls

Flask serves requests on concurrent threads; each SQL statement commits
on its own connection, so the natural atomic unit is one SQL statement.
`verify_license` issues the binding SELECT (read) and the binding UPDATE
(write) as two separate statements; `thread_step` is `verify_license`
split at exactly that boundary: one atomic step performs the lookup,
expiry check and the branch on the hwid read; a second atomic step
performs the UPDATE, the usage-log INSERT and the counter bump.
`thread_run` below shows this micro-step machine agrees with the
sequential `verify_license` when a thread runs alone. -/

/-- The control point of one in-flight `/verify` thread. -/
inductive ThreadPhase where
  | ready
  | willBind (expires_at : String) (plan : String)
  | finished (r : VerifyResult)
deriving DecidableEq

/-- One atomic step of a `/verify` thread against the shared database and
counters (log failures are not modelled here; `ctx.logFails = false`). -/
def thread_step (db : DB) (stats : APIStats) (license_key hwid : String)
    (now : DateTime) (ctx : VerifyCtx) : ThreadPhase → ThreadPhase × DB × APIStats
  | .ready =>
    match get_license db license_key with
    | none => (.finished .notFound, db, increment_error stats)
    | some license_info =>
      if is_expired now license_info.expires_at then
        (.finished .expired, db, increment_error stats)
      else
        match license_info.hwid with
        | none => (.willBind license_info.expires_at license_info.plan, db, stats)
        | some stored =>
          if stored == hwid then
            (.finished (.valid license_info.expires_at license_info.plan),
             log_usage db license_key ctx.ip ctx.user_agent hwid ctx.timestamp ctx.geo_country,
             increment_request stats "verify")
          else
            (.finished .hwidMismatch, db, increment_error stats)
  | .willBind e p =>
    (.finished (.valid e p),
     log_usage (update_hwid db license_key hwid) license_key ctx.ip ctx.user_agent hwid
       ctx.timestamp ctx.geo_country,
     increment_request stats "verify")
  | .finished r => (.finished r, db, stats)

/-- Run one thread's steps to completion with no interference. -/
def thread_run (db : DB) (stats : APIStats) (license_key hwid : String)
    (now : DateTime) (ctx : VerifyCtx) : VerifyResult × DB × APIStats :=
  let s1 := thread_step db stats license_key hwid now ctx .ready
  let s2 := thread_step s1.2.1 s1.2.2 license_key hwid now ctx s1.1
  match s2.1 with
  | .finished r => (r, s2.2.1, s2.2.2)
  | _ => (.internalError, s2.2.1, s2.2.2)

/-- Interleave two `/verify` threads A and B over the shared state under
an explicit schedule (`true` = A takes the next atomic step). -/
def run_sched (keyA hwidA keyB hwidB : String) (now : DateTime) (ctxA ctxB : VerifyCtx) :
    DB → APIStats → ThreadPhase → ThreadPhase → List Bool →
    ThreadPhase × ThreadPhase × DB × APIStats
  | db, stats, pa, pb, [] => (pa, pb, db, stats)
  | db, stats, pa, pb, true :: rest =>
    let s := thread_step db stats keyA hwidA now ctxA pa
    run_sched keyA hwidA keyB hwidB now ctxA ctxB s.2.1 s.2.2 s.1 pb rest
  | db, stats, pa, pb, false :: rest =>
    let s := thread_step db stats keyB hwidB now ctxB pb
    run_sched keyA hwidA keyB hwidB now ctxA ctxB s.2.1 s.2.2 pa s.1 rest

/-! ### Sequences of `/verify` calls, for the metrics claims -/

/-- The inputs of one `/verify` call. -/
structure VerifyCall where
  keyField : Option String
  hwidField : Option String
  now : DateTime
  ctx : VerifyCtx
deriving DecidableEq

/-- Run a sequence of `/verify` calls, threading the database and the
counters through; returns the per-call outcomes as well. -/
def run_verifies : List VerifyCall → DB → APIStats → List VerifyResult × DB × APIStats
  | [], db, stats => ([], db, stats)
  | c :: cs, db, stats =>
    let s := verify_license db stats c.keyField c.hwidField c.now c.ctx
    let r := run_verifies cs s.2.1 s.2.2
    (s.1 :: r.1, r.2.1, r.2.2)

/-- Whether a `/verify` outcome is the success body. -/
def isValidR : VerifyResult → Bool
  | .valid _ _ => true
  | _ => false

/-! ### Concrete fixtures used by several theorems -/

/-- A request context whose usage-log INSERT succeeds. -/
def ctx0 : VerifyCtx := ⟨"1.2.3.4", "agent", "US", "2025-01-01 00:00:00", false⟩

/-- A request context whose usage-log INSERT raises. -/
def ctxFail : VerifyCtx := ⟨"1.2.3.4", "agent", "US", "2025-01-01 00:00:00", true⟩

/-- A fixed current time well before the fixture expiry dates. -/
def now0 : DateTime := ⟨⟨2025, 1, 1⟩, 100⟩

/-- A database holding one unbound, far-future license. -/
def db_unbound : DB := ⟨[⟨"LIC-K", none, "2999-01-01", "basic"⟩], []⟩

/-- A database holding one license bound to `device-A`. -/
def db_bound : DB := ⟨[⟨"LIC-K", some "device-A", "2999-01-01", "pro"⟩], []⟩

/-! ### Helper lemmas about the engine -/

/-- Every return path of `verify_license` bumps exactly one counter: the
`verify` request counter on the success body, the error counter on every
other outcome. -/
theorem verify_license_stats (db : DB) (stats : APIStats) (kf hf : Option String)
    (now : DateTime) (ctx : VerifyCtx) :
    (verify_license db stats kf hf now ctx).2.2 =
      if isValidR (verify_license db stats kf hf now ctx).1 then
        increment_request stats "verify"
      else increment_error stats := by
  unfold verify_license
  cases kf with
  | none => cases hf <;> simp [isValidR]
  | some k =>
    cases hf with
    | none => simp [isValidR]
    | some h =>
      cases hg : get_license db k with
      | none => simp [hg, isValidR]
      | some lic =>
        cases hexp : is_expired now lic.expires_at with
        | true => simp [hg, hexp, isValidR]
        | false =>
          cases hh : lic.hwid with
          | none => cases hlf : ctx.logFails <;> simp [hg, hexp, hh, hlf, isValidR]
          | some stored =>
            by_cases hm : stored = h
            · cases hlf : ctx.logFails <;> simp [hg, hexp, hh, hm, hlf, isValidR]
            · simp [hg, hexp, hh, hm, isValidR]

/-- The micro-step machine of one `/verify` thread, run without
interference, computes exactly what the sequential `verify_license`
computes (for contexts whose usage-log INSERT succeeds). -/
theorem thread_run_eq_verify (db : DB) (stats : APIStats) (k h : String)
    (now : DateTime) (ctx : VerifyCtx) (hlf : ctx.logFails = false) :
    thread_run db stats k h now ctx = verify_license db stats (some k) (some h) now ctx := by
  unfold thread_run thread_step verify_license
  cases hg : get_license db k with
  | none => simp [hg]
  | some lic =>
    cases hexp : is_expired now lic.expires_at with
    | true => simp [hg, hexp]
    | false =>
      cases hh : lic.hwid with
      | none => simp [hg, hexp, hh, hlf]
      | some stored =>
        by_cases hm : stored = h
        · simp [hg, hexp, hh, hm, hlf]
        · simp [hg, hexp, hh, hm]

/-- Folding any sequence of `/verify` calls over fresh counters adds one
`verify` request per success body and one error per other outcome. -/
theorem run_verifies_stats (calls : List VerifyCall) : ∀ (db : DB) (stats : APIStats),
    (run_verifies calls db stats).2.2 =
      ⟨stats.request_count + ((run_verifies calls db stats).1.filter isValidR).length,
       stats.verify_requests + ((run_verifies calls db stats).1.filter isValidR).length,
       stats.admin_requests,
       stats.error_count + ((run_verifies calls db stats).1.filter (fun r => !isValidR r)).length⟩ := by
  induction calls with
  | nil => intro db stats; simp [run_verifies]
  | cons c cs ih =>
    intro db stats
    simp only [run_verifies]
    rw [ih]
    rw [verify_license_stats db stats c.keyField c.hwidField c.now c.ctx]
    cases hv : isValidR (verify_license db stats c.keyField c.hwidField c.now c.ctx).1 with
    | true =>
      simp [hv, increment_request, increment_error, APIStats.mk.injEq]
      omega
    | false =>
      simp [hv, increment_request, increment_error, APIStats.mk.injEq]
      omega

/-! ### C1 — the binding race -/

/-- Two concurrent first verifications of the unbound fixture license:
thread A supplies `device-A`, thread B supplies `device-B`, under the
given schedule of atomic SQL steps (`true` = A moves). -/
def race_run (sched : List Bool) : ThreadPhase × ThreadPhase × DB × APIStats :=
  run_sched "LIC-K" "device-A" "LIC-K" "device-B" now0 ctx0 ctx0 db_unbound initStats
    .ready .ready sched

/-- C1: the code's unbound-to-bound step is NOT an atomic compare-and-set:
`verify_license` reads the record (SELECT) and then issues an
unconditional `UPDATE ... WHERE key = ?` as a separate statement.  Under
the interleaving A-read, B-read, A-write, B-write both concurrent first
verifications return the success body with different hardware ids, and
two different hardware-id values are stored over the execution
(`device-A` after A's write, `device-B` after B's); the loser is not
told of any mismatch.  Run sequentially (A completes, then B) the same
two calls give A success and B `HwidMismatch`. -/
theorem binding_race_exhibit :
    (race_run [true, false, true, false]).1 = .finished (.valid "2999-01-01" "basic") ∧
    (race_run [true, false, true, false]).2.1 = .finished (.valid "2999-01-01" "basic") ∧
    get_license (race_run [true, false, true, false]).2.2.1 "LIC-K" =
      some ⟨"LIC-K", some "device-B", "2999-01-01", "basic"⟩ ∧
    get_license (race_run [true, false, true]).2.2.1 "LIC-K" =
      some ⟨"LIC-K", some "device-A", "2999-01-01", "basic"⟩ ∧
    "device-A" ≠ "device-B" ∧
    (race_run [true, true, false, false]).1 = .finished (.valid "2999-01-01" "basic") ∧
    (race_run [true, true, false, false]).2.1 = .finished .hwidMismatch := by
  decide

/-! ### C2 — the empty-string pre-bind scenario -/

/-- The C2 scenario issuance: `Issue(expiresAt="2999-01-01", hwid="",
plan="pro")` against an empty database, with `LIC-TESTKEY` as the
freshly drawn key. -/
def c2_issue : IssueResult × DB × APIStats :=
  generate_license ⟨[], []⟩ initStats (some "2999-01-01") (some (some "")) (some "pro")
    "LIC-TESTKEY"

/-- The database state after the C2 scenario issuance. -/
def c2_db : DB := c2_issue.2.1

/-- C2 counterexample: after issuing with `hwid=""`, the first
`Verify(K, "device-A")` does NOT return the success body — the empty
string is stored as a bound hardware id (not SQL NULL), so the
`license_info['hwid'] is None` branch is not taken and the call falls
into the mismatch branch, returning `HwidMismatch`. -/
theorem empty_hwid_first_verify_cex :
    c2_issue.1 = .issued "LIC-TESTKEY" "2999-01-01" ∧
    (verify_license c2_db initStats (some "LIC-TESTKEY") (some "device-A") now0 ctx0).1 =
      .hwidMismatch ∧
    (verify_license c2_db initStats (some "LIC-TESTKEY") (some "device-A") now0 ctx0).1 ≠
      .valid "2999-01-01" "pro" := by
  decide

/-- C2 amended: `Issue(expiresAt="2999-01-01", hwid="", plan="pro")`
returns key K and stores `hardwareId = ""` (the empty string, a bound
value, not null); `Verify(K, "device-A")` then returns `HwidMismatch`
and leaves the stored record unchanged, and `Verify(K, "device-B")`
returns `HwidMismatch` as well. -/
theorem empty_hwid_scenario :
    c2_issue.1 = .issued "LIC-TESTKEY" "2999-01-01" ∧
    get_license c2_db "LIC-TESTKEY" = some ⟨"LIC-TESTKEY", some "", "2999-01-01", "pro"⟩ ∧
    (verify_license c2_db initStats (some "LIC-TESTKEY") (some "device-A") now0 ctx0).1 =
      .hwidMismatch ∧
    (verify_license c2_db initStats (some "LIC-TESTKEY") (some "device-A") now0 ctx0).2.1 =
      c2_db ∧
    (verify_license c2_db initStats (some "LIC-TESTKEY") (some "device-B") now0 ctx0).1 =
      .hwidMismatch := by
  decide

/-! ### C3 — the expiry comparison -/

/-- A license bound to `device-A` that expires on 2020-05-05. -/
def db_expiring : DB := ⟨[⟨"LIC-K", some "device-A", "2020-05-05", "basic"⟩], []⟩

/-- C3 counterexample: at noon of the expiry date itself, with the
matching hardware id, `verify_license` returns `Expired` although the
current calendar date (2020-05-05) is not strictly greater than
`expiresAt` — the code compares the full `datetime.now()` against
midnight of the expiry date, so time-of-day is not ignored. -/
theorem expiry_date_noon_cex :
    (verify_license db_expiring initStats (some "LIC-K") (some "device-A")
        ⟨⟨2020, 5, 5⟩, 43200⟩ ctx0).1 = .expired ∧
    dateLt ⟨2020, 5, 5⟩ ⟨2020, 5, 5⟩ = false := by
  decide

/-- C3 amended: for every found license whose stored `expiresAt` parses
as a date `d`, `verify_license` returns `Expired` exactly when the
current datetime is strictly after midnight of `d` (so the license IS
expired on the expiry date itself at any time after 00:00:00), and this
holds for every binding state — in particular even when the supplied
hardware id matches the stored one. -/
theorem expiry_boundary (db : DB) (stats : APIStats) (k h : String) (now : DateTime)
    (ctx : VerifyCtx) (lic : License) (d : Date)
    (hg : get_license db k = some lic) (hp : parseDate lic.expires_at = some d) :
    ((verify_license db stats (some k) (some h) now ctx).1 = .expired ↔
      dtLt ⟨d, 0⟩ now = true) := by
  have he : is_expired now lic.expires_at = dtLt ⟨d, 0⟩ now := by
    unfold is_expired; rw [hp]
  unfold verify_license
  cases hd : dtLt ⟨d, 0⟩ now with
  | true => simp [hg, he, hd]
  | false =>
    cases hh : lic.hwid with
    | none => cases hlf : ctx.logFails <;> simp [hg, he, hd, hh, hlf]
    | some stored =>
      by_cases hm : stored = h
      · cases hlf : ctx.logFails <;> simp [hg, he, hd, hh, hm, hlf]
      · simp [hg, he, hd, hh, hm]

/-- Witness for the C3 amended theorem at a concrete bound license. -/
theorem expiry_boundary_witness :
    get_license db_bound "LIC-K" = some ⟨"LIC-K", some "device-A", "2999-01-01", "pro"⟩ ∧
    parseDate "2999-01-01" = some ⟨2999, 1, 1⟩ ∧
    ((verify_license db_bound initStats (some "LIC-K") (some "device-A") now0 ctx0).1 =
        .expired ↔ dtLt ⟨⟨2999, 1, 1⟩, 0⟩ now0 = true) :=
  ⟨by decide, by decide,
   expiry_boundary db_bound initStats "LIC-K" "device-A" now0 ctx0
     ⟨"LIC-K", some "device-A", "2999-01-01", "pro"⟩ ⟨2999, 1, 1⟩ (by decide) (by decide)⟩

/-! ### C4 — malformed stored dates fail closed -/

/-- A license whose stored expiry string is not a parseable date. -/
def db_malformed : DB := ⟨[⟨"LIC-M", some "device-A", "soon", "basic"⟩], []⟩

/-- C4: for every found license whose stored `expiresAt` does not parse
as a `YYYY-MM-DD` date, `verify_license` returns `Expired` — in
particular it never returns the success body for such a license
(fail closed). -/
theorem malformed_expiry_fail_closed (db : DB) (stats : APIStats) (k h : String)
    (now : DateTime) (ctx : VerifyCtx) (lic : License)
    (hg : get_license db k = some lic) (hp : parseDate lic.expires_at = none) :
    (verify_license db stats (some k) (some h) now ctx).1 = .expired ∧
    (verify_license db stats (some k) (some h) now ctx).1 ≠
      .valid lic.expires_at lic.plan := by
  have he : is_expired now lic.expires_at = true := by
    unfold is_expired; rw [hp]
  unfold verify_license
  simp [hg, he]

/-- Witness for the C4 theorem at a concrete malformed stored date. -/
theorem malformed_expiry_fail_closed_witness :
    get_license db_malformed "LIC-M" = some ⟨"LIC-M", some "device-A", "soon", "basic"⟩ ∧
    parseDate "soon" = none ∧
    (verify_license db_malformed initStats (some "LIC-M") (some "device-A") now0 ctx0).1 =
      .expired :=
  ⟨by decide, by decide,
   (malformed_expiry_fail_closed db_malformed initStats "LIC-M" "device-A" now0 ctx0
     ⟨"LIC-M", some "device-A", "soon", "basic"⟩ (by decide) (by decide)).1⟩

/-! ### C5 — usage-log failure on an otherwise-valid verification -/

/-- C5 counterexample: an otherwise-valid verification (key found, not
expired, hardware id matches) whose usage-log INSERT raises returns the
500 `internalError` body, not the success body — the outer `except`
catches the exception, so the log failure is NOT swallowed. -/
theorem log_failure_cex :
    (verify_license db_bound initStats (some "LIC-K") (some "device-A") now0 ctxFail).1 =
      .internalError ∧
    (verify_license db_bound initStats (some "LIC-K") (some "device-A") now0 ctxFail).1 ≠
      .valid "2999-01-01" "pro" := by
  decide

/-- C5 amended: for every `/verify` call that passes the lookup, expiry
and hardware-id checks, a failure of the usage-log append DOES change
the verification result: the call returns `internalError` (HTTP 500)
and increments the error counter instead of returning the success body. -/
theorem log_failure_returns_internal (db : DB) (stats : APIStats) (k h : String)
    (now : DateTime) (ctx : VerifyCtx) (lic : License)
    (hlf : ctx.logFails = true)
    (hg : get_license db k = some lic)
    (hexp : is_expired now lic.expires_at = false)
    (hb : lic.hwid = none ∨ lic.hwid = some h) :
    (verify_license db stats (some k) (some h) now ctx).1 = .internalError ∧
    (verify_license db stats (some k) (some h) now ctx).2.2 = increment_error stats := by
  unfold verify_license
  rcases hb with hb | hb <;> simp [hg, hexp, hb, hlf]

/-- Witness for the C5 amended theorem at a concrete bound license. -/
theorem log_failure_returns_internal_witness :
    ctxFail.logFails = true ∧
    get_license db_bound "LIC-K" = some ⟨"LIC-K", some "device-A", "2999-01-01", "pro"⟩ ∧
    is_expired now0 "2999-01-01" = false ∧
    (verify_license db_bound initStats (some "LIC-K") (some "device-A") now0 ctxFail).1 =
      .internalError :=
  ⟨by decide, by decide, by decide,
   (log_failure_returns_internal db_bound initStats "LIC-K" "device-A" now0 ctxFail
     ⟨"LIC-K", some "device-A", "2999-01-01", "pro"⟩ (by decide) (by decide) (by decide)
     (Or.inr (by decide))).1⟩

/-! ### C6 — effects of error outcomes -/

/-- C6 counterexample: on an unbound license whose usage-log INSERT
raises, `verify_license` returns `internalError` but the binding UPDATE
has already been committed — the stored `hardwareId` changed from NULL
to `device-A` on an errored call. -/
theorem partial_bind_on_internal_cex :
    (verify_license db_unbound initStats (some "LIC-K") (some "device-A") now0 ctxFail).1 =
      .internalError ∧
    get_license
        (verify_license db_unbound initStats (some "LIC-K") (some "device-A") now0
          ctxFail).2.1 "LIC-K" =
      some ⟨"LIC-K", some "device-A", "2999-01-01", "basic"⟩ ∧
    get_license db_unbound "LIC-K" = some ⟨"LIC-K", none, "2999-01-01", "basic"⟩ := by
  decide

/-- C6 amended: `NotFound`, `Expired`, `HwidMismatch` and `BadRequest`
outcomes of `verify_license` leave the database entirely unchanged and
only increment the error counter; an `internalError` outcome (a raising
usage-log append) appends no usage event and only increments the error
counter, but may leave the hardware-id binding already applied. -/
theorem error_outcomes_effects (db : DB) (stats : APIStats) (kf hf : Option String)
    (now : DateTime) (ctx : VerifyCtx) :
    (((verify_license db stats kf hf now ctx).1 = .notFound ∨
      (verify_license db stats kf hf now ctx).1 = .expired ∨
      (verify_license db stats kf hf now ctx).1 = .hwidMismatch ∨
      (verify_license db stats kf hf now ctx).1 = .badRequest) →
      (verify_license db stats kf hf now ctx).2.1 = db ∧
      (verify_license db stats kf hf now ctx).2.2 = increment_error stats) ∧
    ((verify_license db stats kf hf now ctx).1 = .internalError →
      (verify_license db stats kf hf now ctx).2.1.logs = db.logs ∧
      (verify_license db stats kf hf now ctx).2.2 = increment_error stats) := by
  cases kf with
  | none => cases hf <;> simp [verify_license]
  | some k =>
    cases hf with
    | none => simp [verify_license]
    | some h =>
      cases hg : get_license db k with
      | none => simp [verify_license, hg]
      | some lic =>
        cases hexp : is_expired now lic.expires_at with
        | true => simp [verify_license, hg, hexp]
        | false =>
          cases hh : lic.hwid with
          | none =>
            cases hlf : ctx.logFails <;>
              simp [verify_license, hg, hexp, hh, hlf, update_hwid]
          | some stored =>
            by_cases hm : stored = h
            · cases hlf : ctx.logFails <;> simp [verify_license, hg, hexp, hh, hm, hlf]
            · simp [verify_license, hg, hexp, hh, hm]

/-- Witness for the C6 amended theorem at a concrete not-found call. -/
theorem error_outcomes_effects_witness :
    (verify_license db_bound initStats (some "LIC-NONE") (some "device-A") now0 ctx0).1 =
      .notFound ∧
    (verify_license db_bound initStats (some "LIC-NONE") (some "device-A") now0 ctx0).2.1 =
      db_bound ∧
    (verify_license db_bound initStats (some "LIC-NONE") (some "device-A") now0 ctx0).2.2 =
      increment_error initStats :=
  ⟨by decide,
   (error_outcomes_effects db_bound initStats (some "LIC-NONE") (some "device-A") now0
     ctx0).1 (Or.inl (by decide))⟩

/-! ### C7 — the metrics snapshot -/

/-- One successful verify (binds the unbound fixture license) followed by
one failing verify (unknown key): N = 1, M = 1. -/
def c7_calls : List VerifyCall :=
  [⟨some "LIC-K", some "device-A", now0, ctx0⟩,
   ⟨some "LIC-MISSING", some "device-A", now0, ctx0⟩]

/-- C7 counterexample: after N = 1 successful and M = 1 failing verify
calls from fresh counters, the snapshot reports
`verify_requests = 1` and `error_count = 1` as the claim says, but
`total_requests = 1` (the failing call never reaches
`increment_request`) and `success_rate = (1 - 1) / max 1 1 = 0`, not
`N / (N + M) = 1 / 2`. -/
theorem metrics_rate_cex :
    get_stats (run_verifies c7_calls db_unbound initStats).2.2 = ⟨1, 1, 0, 1, 0⟩ ∧
    (0 : ℚ) ≠ 1 / 2 := by
  constructor
  · have h : (run_verifies c7_calls db_unbound initStats).2.2 = ⟨1, 1, 0, 1⟩ := by decide
    rw [h]
    simp only [get_stats, StatsSnapshot.mk.injEq]
    norm_num
  · norm_num

/-- C7 amended: starting from fresh metrics, a sequence of verify calls
with N success bodies and M error outcomes yields a snapshot with
`verify_requests = N` and `error_count = M` as claimed, but with
`total_requests = N` (failing verify calls are not counted as requests)
and hence `success_rate = (N - M) / max(N, 1)`, not `N / (N + M)`. -/
theorem metrics_snapshot_counts (calls : List VerifyCall) (db : DB) :
    get_stats (run_verifies calls db initStats).2.2 =
      ⟨((run_verifies calls db initStats).1.filter isValidR).length,
       ((run_verifies calls db initStats).1.filter isValidR).length,
       0,
       ((run_verifies calls db initStats).1.filter (fun r => !isValidR r)).length,
       ((((run_verifies calls db initStats).1.filter isValidR).length : ℚ) -
          (((run_verifies calls db initStats).1.filter (fun r => !isValidR r)).length : ℚ)) /
         (max (((run_verifies calls db initStats).1.filter isValidR).length) 1 : ℚ)⟩ := by
  rw [run_verifies_stats]
  simp [get_stats, initStats]

/-! ### C8 — the key generator -/

/-- The characters an upper-cased URL-safe base64 string can contain. -/
def upper_key_alphabet : List Char :=
  "ABCDEFGHIJKLMNOPQRSTUVWXYZ0123456789-_".data

/-- Appending strings concatenates their character lists. -/
theorem string_data_append (a b : String) : (a ++ b).data = a.data ++ b.data := by
  cases a; cases b; rfl

/-- Every upper-cased alphabet symbol lies in the upper-cased URL-safe
alphabet. -/
theorem sextetChar_upper_mem (n : Nat) :
    Char.toUpper (sextetChar n) ∈ upper_key_alphabet := by
  unfold sextetChar
  by_cases hlt : n < base64url_alphabet.length
  · rw [dif_pos hlt]
    have key : ∀ i : Fin base64url_alphabet.length,
        Char.toUpper (base64url_alphabet.get i) ∈ upper_key_alphabet := by decide
    exact key ⟨n, hlt⟩
  · rw [dif_neg hlt]
    decide

/-- The 16 zero bytes. -/
def zero_bytes : List Nat := List.replicate 16 0

/-- 16 bytes differing from `zero_bytes` only in the first byte, chosen
so that the base64url encodings differ only in letter case. -/
def collide_bytes : List Nat := 104 :: List.replicate 15 0

/-- C8 counterexample: two distinct 16-byte inputs (both inside the
2^128-value domain of `secrets.token_urlsafe(16)`) produce the same
license key, because `.upper()` collapses the base64url characters
`a`..`z` onto `A`..`Z` — so the generator's output has fewer than 2^128
distinct equally-reachable values. -/
theorem key_entropy_cex :
    generate_license_key zero_bytes = generate_license_key collide_bytes ∧
    zero_bytes ≠ collide_bytes ∧
    zero_bytes.length = 16 ∧
    collide_bytes.length = 16 ∧
    zero_bytes.all (fun b => b < 256) = true ∧
    collide_bytes.all (fun b => b < 256) = true := by
  decide

/-- C8 amended: every generated key starts with the fixed prefix `LIC-`
and its remainder is drawn from the upper-cased URL-safe alphabet
(letters, digits, `-`, `_` — all URL-safe); the ≥128-bit-entropy part of
the claim is dropped: the `.upper()` call merges case pairs, so the 2^128
distinct random inputs do not map to 2^128 distinct keys. -/
theorem key_format (bytes : List Nat) :
    (generate_license_key bytes).data.take 4 = "LIC-".data ∧
    ∀ c ∈ (generate_license_key bytes).data.drop 4, c ∈ upper_key_alphabet := by
  have hdata : (generate_license_key bytes).data =
      'L' :: 'I' :: 'C' :: '-' ::
        ((toSextets (bytes.map bitsOfByte).flatten).map sextetChar).map Char.toUpper := by
    unfold generate_license_key token_urlsafe
    rw [string_data_append]
    rfl
  constructor
  · rw [hdata]
    rfl
  · rw [hdata]
    intro c hc
    simp only [List.drop_succ_cons, List.drop_zero] at hc
    obtain ⟨x, hx, rfl⟩ := List.mem_map.1 hc
    obtain ⟨n, _, rfl⟩ := List.mem_map.1 hx
    exact sextetChar_upper_mem n

/-! ### C9 — the admin gate -/

/-- C9: whenever the `Authorization` header is not of the form
`Bearer <admin key>` — absent (empty), not Bearer-shaped, or carrying a
mismatched token — the admin endpoint returns 401 without running the
wrapped operation, increments the error counter, and leaves the
admin-request counter untouched. -/
theorem admin_gate_unauthorized {α : Type} (f : APIStats → α × APIStats)
    (authHeader admin_key : String) (stats : APIStats)
    (hbad : ¬(authHeader.data.take 7 = "Bearer ".data ∧
              (splitOnChar ' ' authHeader.data).getD 1 [] = admin_key.data)) :
    admin_endpoint f authHeader admin_key stats = (none, increment_error stats) ∧
    (increment_error stats).admin_requests = stats.admin_requests ∧
    (increment_error stats).error_count = stats.error_count + 1 := by
  unfold admin_endpoint
  by_cases h1 : authHeader.data.take 7 = "Bearer ".data
  · have h2 : (splitOnChar ' ' authHeader.data).getD 1 [] ≠ admin_key.data :=
      fun h2 => hbad ⟨h1, h2⟩
    simp at h2
    simp [h1, h2, increment_error]
  · simp [h1, increment_error]

/-- Witness for the C9 theorem: a Bearer header with the wrong token. -/
theorem admin_gate_unauthorized_witness :
    ¬("Bearer wrong".data.take 7 = "Bearer ".data ∧
      (splitOnChar ' ' "Bearer wrong".data).getD 1 [] = "secret-key".data) ∧
    (admin_endpoint (fun s => (0, s)) "Bearer wrong" "secret-key" initStats =
        (none, increment_error initStats) ∧
      (increment_error initStats).admin_requests = initStats.admin_requests ∧
      (increment_error initStats).error_count = initStats.error_count + 1) :=
  ⟨by decide,
   admin_gate_unauthorized (fun s => (0, s)) "Bearer wrong" "secret-key" initStats (by decide)⟩

/-! ### C10 — key info does not distinguish nonexistent keys -/

/-- C10: `get_key_info` consults only the usage-log table, so its result
is the same for any two license tables over the same logs (a nonexistent
key and an existing-but-never-verified key are indistinguishable), and a
key with no usage rows yields the `no key info` answer — there is no
not-found outcome in its result type at all. -/
theorem keyinfo_no_distinction (l1 l2 : List License) (logs : List UsageLog) (k : String) :
    get_key_info ⟨l1, logs⟩ (some k) = get_key_info ⟨l2, logs⟩ (some k) ∧
    (k ≠ "" → logs.filter (fun e => e.license_key == k) = [] →
      get_key_info ⟨l1, logs⟩ (some k) = .noData) := by
  constructor
  · rfl
  · intro hk hf
    unfold get_key_info get_usage_info
    simp [hk, hf]

/-- Witness for the C10 theorem: an issued-but-never-verified key gives
the same `no key info` answer as the same key over an empty license
table. -/
theorem keyinfo_no_distinction_witness :
    get_key_info ⟨[⟨"LIC-X", none, "2999-01-01", "basic"⟩], []⟩ (some "LIC-X") = .noData ∧
    get_key_info ⟨[⟨"LIC-X", none, "2999-01-01", "basic"⟩], []⟩ (some "LIC-X") =
      get_key_info ⟨[], []⟩ (some "LIC-X") :=
  ⟨(keyinfo_no_distinction [⟨"LIC-X", none, "2999-01-01", "basic"⟩] [] [] "LIC-X").2
     (by decide) rfl,
   (keyinfo_no_distinction [⟨"LIC-X", none, "2999-01-01", "basic"⟩] [] [] "LIC-X").1⟩

end Cerber
